import Mathlib

/-!
Verification of the RigelEngine entity factory, sprite assembly and
saved-game deserialization against their natural-language specification.

The definitions below are a shallow embedding of the C++ sources:
  * src/game_logic/entity_factory.cpp (sprite assembly, entity factory,
    projectile configuration, level entity creation)
  * src/common/user_profile.cpp (saved-game deserialization)

Helpers that live in headers or in entity_configuration.ipp (which are not
part of the provided sources) are modelled from the specification; every
such definition carries a doc comment starting with "Modelled from the
spec:".
-/

set_option autoImplicit false

namespace RigelEngine

/-- Integer 2D vector, embedding `base::Vector` (a pair of ints). -/
structure Vec2 where
  x : Int
  y : Int
deriving DecidableEq

/-- Embeds `base::Rect<int>`: a top-left corner plus a size. -/
structure Rect where
  topLeftX : Int
  topLeftY : Int
  width : Int
  height : Int

/-- Embedding of `data::ActorID`.  The enumeration in the real code is much
larger; the constructors listed here are the ones named by the factory code
under verification, and `other n` stands for any of the remaining
identifiers (the code treats them uniformly). -/
inductive ActorID where
  | Duke_LEFT
  | Duke_RIGHT
  | Reactor_fire_LEFT
  | Reactor_fire_RIGHT
  | Radar_computer_terminal
  | Dukes_ship_LEFT
  | Dukes_ship_RIGHT
  | Dukes_ship_after_exiting_LEFT
  | Dukes_ship_after_exiting_RIGHT
  | Enemy_laser_muzzle_flash_1
  | Enemy_laser_muzzle_flash_2
  | Snake
  | Eyeball_thrower_LEFT
  | Skeleton
  | Spider
  | Red_box_turkey
  | Rigelatin_soldier
  | Ugly_green_bird
  | Big_green_cat_LEFT
  | Big_green_cat_RIGHT
  | Spiked_green_creature_LEFT
  | Spiked_green_creature_RIGHT
  | Unicycle_bot
  | other (n : Nat)
deriving DecidableEq

/-- Embedding of `ProjectileType` (entity_factory.hpp). -/
inductive ProjectileType where
  | PlayerRegularShot
  | PlayerLaserShot
  | PlayerRocketShot
  | PlayerFlameShot
  | PlayerShipLaserShot
  | ReactorDebris
  | EnemyLaserShot
  | EnemyRocket
  | EnemyBossRocket
deriving DecidableEq

/-- Embedding of `ProjectileDirection`. -/
inductive ProjectileDirection where
  | Left
  | Right
  | Up
  | Down
deriving DecidableEq

/-- Embedding of `Orientation` (left/right facing). -/
inductive Orientation where
  | Left
  | Right
deriving DecidableEq

/-- Modelled from the spec: `isHorizontal` (declared in entity_factory.hpp,
not among the provided sources) holds exactly for the left and right firing
directions. -/
def isHorizontal : ProjectileDirection → Bool
  | .Left => true
  | .Right => true
  | .Up => false
  | .Down => false

/-- Modelled from the spec: `isPlayerProjectile` (declared in
entity_factory.hpp, not among the provided sources) classifies the five
player-owned projectile types.  The reactor-debris effect is not itself
classified as player-owned; the source tests it separately
(`isPlayerProjectile(type) || type == ProjectileType::ReactorDebris`). -/
def isPlayerProjectile : ProjectileType → Bool
  | .PlayerRegularShot => true
  | .PlayerLaserShot => true
  | .PlayerRocketShot => true
  | .PlayerFlameShot => true
  | .PlayerShipLaserShot => true
  | _ => false

/-- Modelled from the spec: `directionToVector` maps a firing direction to
its unit direction vector ("straight-line velocity (direction vector ×
type-specific speed)"). -/
def directionToVector : ProjectileDirection → Vec2
  | .Left => ⟨-1, 0⟩
  | .Right => ⟨1, 0⟩
  | .Up => ⟨0, -1⟩
  | .Down => ⟨0, 1⟩

/-- Embedding of `components::PlayerProjectile::Type`. -/
inductive PlayerProjectileKind where
  | Normal
  | Laser
  | Rocket
  | Flame
  | ShipLaser
  | ReactorDebris
deriving DecidableEq

/-- Embeds `toPlayerProjectileType` (entity_factory.cpp).  The C++ function
is an integer cast whose domain, per the adjacent static_assert, is the five
player projectile types plus reactor debris; the source only applies it to
those.  The three enemy types are mapped arbitrarily (to `Normal`), matching
the fact that the cast is never evaluated on them. -/
def toPlayerProjectileType : ProjectileType → PlayerProjectileKind
  | .PlayerRegularShot => .Normal
  | .PlayerLaserShot => .Laser
  | .PlayerRocketShot => .Rocket
  | .PlayerFlameShot => .Flame
  | .PlayerShipLaserShot => .ShipLaser
  | .ReactorDebris => .ReactorDebris
  | .EnemyLaserShot => .Normal
  | .EnemyRocket => .Normal
  | .EnemyBossRocket => .Normal

/-- Embedding of `engine::components::MovingBody`: velocity, gravity flag,
and the two flags mutated by `configureProjectile`
(`mIgnoreCollisions`, `mIsActive`; they default to `false` and `true`). -/
structure MovingBody where
  velocityX : Int
  velocityY : Int
  gravityAffected : Bool
  mIgnoreCollisions : Bool
  mIsActive : Bool
deriving DecidableEq

/-- Embedding of `game_logic::components::DamageInflicting` (damage dealt to
the enemy faction): amount plus the destroy-on-contact flag. -/
structure DamageInflicting where
  amount : Int
  destroyOnContact : Bool
deriving DecidableEq

/-- Embedding of `game_logic::components::PlayerDamaging` (damage dealt to
the player), as constructed by `configureProjectile`:
`PlayerDamaging{amount, false, true}`. -/
structure PlayerDamaging where
  amount : Int
  isFatal : Bool
  destroysOnContact : Bool
deriving DecidableEq

/-- Embedding of `engine::components::AutoDestroy`: a set of conditions
(world collision / leaving the active region) together with an optional
timeout (`AutoDestroy::afterTimeout`). -/
structure AutoDestroy where
  onWorldCollision : Bool
  onLeavingActiveRegion : Bool
  timeout : Option Nat
deriving DecidableEq

/-- A runtime entity: a bag of optional capability components, embedding the
entityx component storage for the components touched by the factory code. -/
structure Entity where
  spriteId : Option ActorID
  position : Option Vec2
  boundingBox : Option Rect
  movingBody : Option MovingBody
  damageInflicting : Option DamageInflicting
  playerDamaging : Option PlayerDamaging
  playerProjectile : Option PlayerProjectileKind
  autoDestroy : Option AutoDestroy
  active : Bool
  mapGeometryLink : Option Rect
  playerOrientation : Option Orientation
  configuredAs : Option ActorID

/-- A freshly created entity with no components (`entityManager->create()`). -/
def Entity.empty : Entity :=
  { spriteId := none
    position := none
    boundingBox := none
    movingBody := none
    damageInflicting := none
    playerDamaging := none
    playerProjectile := none
    autoDestroy := none
    active := false
    mapGeometryLink := none
    playerOrientation := none
    configuredAs := none }

/-- The position-correction part of `EntityFactory::configureProjectile`
(entity_factory.cpp, lines 567-588): the flame-thrower-specific offset
(`y += 1` when fired horizontally, `x -= 1` otherwise), followed by the
left-facing adjustment `x -= boundingBox.size.width - 1` with the extra
`x += 3` for the flame-thrower shot. -/
def correctedProjectilePosition
    (type : ProjectileType) (pos : Vec2)
    (direction : ProjectileDirection) (boundingBoxWidth : Int) : Vec2 :=
  let isGoingLeft := direction = .Left
  let pos1 :=
    if type = .PlayerFlameShot then
      if isHorizontal direction then { pos with y := pos.y + 1 }
      else { pos with x := pos.x - 1 }
    else pos
  if isHorizontal direction ∧ isGoingLeft then
    let pos2 := { pos1 with x := pos1.x - (boundingBoxWidth - 1) }
    if type = .PlayerFlameShot then { pos2 with x := pos2.x + 3 }
    else pos2
  else pos1

/-- Embedding of `EntityFactory::configureProjectile` (entity_factory.cpp,
lines 557-640).  `speedFor` and `damageFor` stand for
`speedForProjectileType` / `damageForProjectileType`, which live in
entity_configuration.ipp (not among the provided sources) and are passed as
parameters; the claims under verification do not depend on their values.
Returns the configured entity together with the list of additionally
created entities (the muzzle flash). -/
def configureProjectile
    (speedFor damageFor : ProjectileType → Int)
    (entity : Entity) (type : ProjectileType) (pos : Vec2)
    (direction : ProjectileDirection) (boundingBox : Rect) :
    Entity × List Entity :=
  let position := correctedProjectilePosition type pos direction boundingBox.width
  let entity := { entity with position := some position }
  -- Special case for rockets: configured in configureEntity() instead.
  if type = .EnemyRocket ∨ type = .EnemyBossRocket then
    (entity, [])
  else
    let speed := speedFor type
    let damageAmount := damageFor type
    let v := directionToVector direction
    let entity := { entity with
      movingBody := some
        { velocityX := v.x * speed
          velocityY := v.y * speed
          gravityAffected := false
          mIgnoreCollisions := false
          mIsActive := true } }
    let entity :=
      if isPlayerProjectile type ∨ type = .ReactorDebris then
        { entity with
          movingBody := some
            { velocityX := v.x * speed
              velocityY := v.y * speed
              gravityAffected := false
              mIgnoreCollisions := true
              mIsActive := false }
          damageInflicting := some ⟨damageAmount, false⟩
          playerProjectile := some (toPlayerProjectileType type)
          autoDestroy := some
            { onWorldCollision := false
              onLeavingActiveRegion := true
              timeout := none } }
      else
        { entity with
          playerDamaging := some ⟨damageAmount, false, true⟩
          autoDestroy := some
            { onWorldCollision := true
              onLeavingActiveRegion := true
              timeout := none } }
    let extras :=
      if type = .EnemyLaserShot then
        let muzzleFlashSpriteId :=
          if direction = .Left then ActorID.Enemy_laser_muzzle_flash_1
          else ActorID.Enemy_laser_muzzle_flash_2
        [{ Entity.empty with
            spriteId := some muzzleFlashSpriteId
            position := some position
            autoDestroy := some
              { onWorldCollision := false
                onLeavingActiveRegion := false
                timeout := some 1 } }]
      else []
    (entity, extras)

/-- A frame of actor data as delivered by the asset package
(`loader::ActorData::Frame`): an image (abstract handle) plus a draw
offset. -/
structure ActorFrameData where
  mFrameImage : Nat
  mDrawOffsetX : Int
  mDrawOffsetY : Int

/-- Embedding of `loader::ActorData`: a draw index plus the part's frames. -/
structure ActorData where
  mDrawIndex : Int
  mFrames : List ActorFrameData

/-- Embedding of `engine::SpriteFrame`: the texture created from the frame
image (kept as the abstract image handle) plus the draw offset. -/
structure SpriteFrame where
  image : Nat
  mDrawOffsetX : Int
  mDrawOffsetY : Int

/-- Embedding of `createFrameDrawData` (entity_factory.cpp, lines 241-247). -/
def createFrameDrawData (frameData : ActorFrameData) : SpriteFrame :=
  ⟨frameData.mFrameImage, frameData.mDrawOffsetX, frameData.mDrawOffsetY⟩

/-- Applies `f` to the element at index `i` of a list, embedding an indexed
assignment `l[i] = f(l[i])`; out-of-range indices leave the list unchanged
(the C++ only performs in-range assignments). -/
def modifyAt {α : Type} : List α → Nat → (α → α) → List α
  | [], _, _ => []
  | x :: xs, 0, f => f x :: xs
  | x :: xs, i + 1, f => x :: modifyAt xs i f

/-- Inserts an element at index `i`, embedding
`frames.insert(frames.begin() + i, a)`.  Past-the-end indices append (the
C++ only inserts at in-range positions). -/
def insertAt {α : Type} : List α → Nat → α → List α
  | xs, 0, a => a :: xs
  | [], _ + 1, a => [a]
  | x :: xs, i + 1, a => x :: insertAt xs i a

/-- Maps `f` over a list together with each element's index (starting at
`start`), embedding the indexed loops of `applyTweaks`. -/
def mapFromIndex {α : Type} (f : Nat → α → α) : Nat → List α → List α
  | _, [] => []
  | i, x :: xs => f i x :: mapFromIndex f (i + 1) xs

/-- The player-sprite branch of `applyTweaks` (entity_factory.cpp, lines
260-267): shift the x offset of frames 0..38 except 35 and 36 left by 1. -/
def tweakDukeSprite (actorId : ActorID) (frames : List SpriteFrame) :
    List SpriteFrame :=
  if actorId = .Duke_LEFT ∨ actorId = .Duke_RIGHT then
    mapFromIndex
      (fun i f =>
        if i < 39 ∧ i ≠ 35 ∧ i ≠ 36 then
          { f with mDrawOffsetX := f.mDrawOffsetX - 1 }
        else f)
      0 frames
  else frames

/-- The destroyed-reactor-fire branch of `applyTweaks` (lines 269-272):
zero the first frame's x offset. -/
def tweakReactorFire (actorId : ActorID) (frames : List SpriteFrame) :
    List SpriteFrame :=
  if actorId = .Reactor_fire_LEFT ∨ actorId = .Reactor_fire_RIGHT then
    modifyAt frames 0 (fun f => { f with mDrawOffsetX := 0 })
  else frames

/-- The radar-computer branch of `applyTweaks` (lines 274-279): shift the
x offset of every frame from index 8 on left by 1. -/
def tweakRadarComputer (actorId : ActorID) (frames : List SpriteFrame) :
    List SpriteFrame :=
  if actorId = .Radar_computer_terminal then
    mapFromIndex
      (fun i f =>
        if 8 ≤ i then { f with mDrawOffsetX := f.mDrawOffsetX - 1 }
        else f)
      0 frames
  else frames

/-- The Duke's-ship branch of `applyTweaks` (lines 281-320): duplicate the
two down-facing exhaust flame frames (frames 0 and 1 of the third
constituent part), insert the copies at indices 8 and 9, and give the
copies an additional +1 x offset. -/
def tweakDukesShip (actorId : ActorID) (actorParts : List ActorData)
    (frames : List SpriteFrame) : List SpriteFrame :=
  if actorId = .Dukes_ship_LEFT ∨ actorId = .Dukes_ship_RIGHT ∨
      actorId = .Dukes_ship_after_exiting_LEFT ∨
      actorId = .Dukes_ship_after_exiting_RIGHT then
    let part2 := actorParts.getD 2 ⟨0, []⟩
    let frames4 :=
      insertAt frames 8 (createFrameDrawData (part2.mFrames.getD 0 ⟨0, 0, 0⟩))
    let frames5 :=
      insertAt frames4 9 (createFrameDrawData (part2.mFrames.getD 1 ⟨0, 0, 0⟩))
    let frames6 :=
      modifyAt frames5 8 (fun f => { f with mDrawOffsetX := f.mDrawOffsetX + 1 })
    modifyAt frames6 9 (fun f => { f with mDrawOffsetX := f.mDrawOffsetX + 1 })
  else frames

/-- Embedding of `applyTweaks` (entity_factory.cpp, lines 250-321): the
per-actor one-off draw-offset corrections, applied in source order. -/
def applyTweaks
    (frames : List SpriteFrame) (actorId : ActorID)
    (actorParts : List ActorData) : List SpriteFrame :=
  tweakDukesShip actorId actorParts
    (tweakRadarComputer actorId
      (tweakReactorFire actorId
        (tweakDukeSprite actorId frames)))

/-- Embedding of `orientationOffsetForActor` (entity_factory.cpp, lines
324-371). -/
def orientationOffsetForActor (actorId : ActorID) : Option Int :=
  match actorId with
  | .Duke_LEFT | .Duke_RIGHT => some 39
  | .Snake => some 9
  | .Eyeball_thrower_LEFT => some 10
  | .Skeleton => some 4
  | .Spider => some 13
  | .Red_box_turkey => some 2
  | .Rigelatin_soldier => some 4
  | .Ugly_green_bird => some 3
  | .Big_green_cat_LEFT | .Big_green_cat_RIGHT => some 3
  | .Spiked_green_creature_LEFT | .Spiked_green_creature_RIGHT => some 6
  | .Unicycle_bot => some 4
  | .Dukes_ship_LEFT | .Dukes_ship_RIGHT
  | .Dukes_ship_after_exiting_LEFT | .Dukes_ship_after_exiting_RIGHT => some 6
  | _ => none

/-- `SPIDER_FRAME_MAP` (entity_factory.cpp, lines 374-377). -/
def SPIDER_FRAME_MAP : List Int :=
  [3, 4, 5, 9, 10, 11, 6, 8, 9, 14, 15, 12, 13,
   0, 1, 2, 6, 7, 8, 6, 8, 9, 12, 13, 14, 15]

/-- `UNICYCLE_FRAME_MAP` (entity_factory.cpp, lines 380-383). -/
def UNICYCLE_FRAME_MAP : List Int :=
  [0, 5, 1, 2,
   0, 5, 3, 4]

/-- `DUKES_SHIP_FRAME_MAP` (entity_factory.cpp, lines 386-389). -/
def DUKES_SHIP_FRAME_MAP : List Int :=
  [0, 1, 10, 11, 8, 9,
   2, 3, 6, 7, 4, 5]

/-- Embedding of `frameMapForActor` (entity_factory.cpp, lines 392-409). -/
def frameMapForActor (actorId : ActorID) : List Int :=
  match actorId with
  | .Spider => SPIDER_FRAME_MAP
  | .Unicycle_bot => UNICYCLE_FRAME_MAP
  | .Dukes_ship_LEFT | .Dukes_ship_RIGHT
  | .Dukes_ship_after_exiting_LEFT | .Dukes_ship_after_exiting_RIGHT =>
      DUKES_SHIP_FRAME_MAP
  | _ => []

/-- Embedding of the fatal error taxonomy: an unknown/unsupported actor
identifier. -/
inductive ConfigurationError where
  | unknownActor

/-- Modelled from the spec: the pieces consulted by
`SpriteFactory::createSprite` that are not among the provided sources —
the asset package (`ActorImagePackage::loadActor`) and the configuration
table helpers from entity_configuration.ipp (`actorIDListForActor`,
`adjustedDrawOrder`).  `supported` is the finite set of identifiers known
at asset-load time, `dataFor` the per-part frame records, `partsFor` the
constituent part list of a composite actor, and `adjustedDrawOrder` the
per-actor draw-order override. -/
structure SpriteAssets where
  supported : ActorID → Bool
  dataFor : ActorID → ActorData
  partsFor : ActorID → List ActorID
  adjustedDrawOrder : ActorID → Int → Int

/-- Modelled from the spec: `ActorImagePackage::loadActor` (external asset
package) resolves a part identifier to its frame records, and signals a
fatal error for identifiers outside the finite set known at
asset-load time. -/
def loadActorM (assets : SpriteAssets) (id : ActorID) :
    Except ConfigurationError ActorData :=
  if assets.supported id then .ok (assets.dataFor id) else .error .unknownActor

/-- Modelled from the spec: `actorIDListForActor`
(entity_configuration.ipp, not among the provided sources) maps a
composite actor identifier to its constituent part identifiers and falls
back to the identifier itself for identifiers outside the composite
table. -/
def actorIDListForActor (assets : SpriteAssets) (mainId : ActorID) :
    List ActorID :=
  if assets.supported mainId then assets.partsFor mainId else [mainId]

/-- Sequentially loads all constituent parts, embedding
`utils::transformed(actorPartIds, ... loadActor ...)`; the first failing
load aborts the whole operation (the C++ exception propagates). -/
def loadAll (assets : SpriteAssets) :
    List ActorID → Except ConfigurationError (List ActorData)
  | [] => .ok []
  | p :: ps =>
    match loadActorM assets p with
    | .error e => .error e
    | .ok d =>
      match loadAll assets ps with
      | .error e => .error e
      | .ok ds => .ok (d :: ds)

/-- The loop state of the assembly loop in `SpriteFactory::createSprite`
(entity_factory.cpp, lines 442-452): accumulated frames, the
frames-to-render list, and the running `lastDrawOrder` /
`lastFrameCount`. -/
structure AssemblyState where
  frames : List SpriteFrame
  framesToRender : List Int
  lastDrawOrder : Int
  lastFrameCount : Int

/-- One iteration of the assembly loop: note that `framesToRender` receives
the previous part's frame count (`lastFrameCount` is pushed before being
updated). -/
def assembleStep (st : AssemblyState) (actorData : ActorData) :
    AssemblyState :=
  { frames := st.frames ++ actorData.mFrames.map createFrameDrawData
    framesToRender := st.framesToRender ++ [st.lastFrameCount]
    lastDrawOrder := actorData.mDrawIndex
    lastFrameCount := Int.ofNat actorData.mFrames.length }

/-- Embedding of `engine::SpriteDrawData`. -/
structure SpriteDrawData where
  mFrames : List SpriteFrame
  mOrientationOffset : Option Int
  mVirtualToRealFrameMap : List Int
  mDrawOrder : Int

/-- Embedding of `SpriteFactory::SpriteData` (cached per actor id). -/
structure SpriteData where
  mDrawData : SpriteDrawData
  mInitialFramesToRender : List Int

/-- The sprite-data cache (`mSpriteDataCache`, an unordered map), embedded
as an association list. -/
def SpriteCache : Type := List (ActorID × SpriteData)

/-- Cache lookup (`mSpriteDataCache.find(mainId)`). -/
def cacheLookup (cache : SpriteCache) (id : ActorID) : Option SpriteData :=
  match cache with
  | [] => none
  | (k, v) :: rest => if k = id then some v else cacheLookup rest id

/-- The assembly part of `SpriteFactory::createSprite` (entity_factory.cpp,
lines 430-458): runs the loop over the loaded parts, then attaches the
orientation offset, the virtual-to-real frame map, the (possibly
overridden) draw order, and applies the per-actor tweaks. -/
def assembleSpriteData (assets : SpriteAssets) (mainId : ActorID)
    (actorParts : List ActorData) : SpriteData :=
  let st := actorParts.foldl assembleStep ⟨[], [], 0, 0⟩
  { mDrawData :=
      { mFrames := applyTweaks st.frames mainId actorParts
        mOrientationOffset := orientationOffsetForActor mainId
        mVirtualToRealFrameMap := frameMapForActor mainId
        mDrawOrder := assets.adjustedDrawOrder mainId st.lastDrawOrder }
    mInitialFramesToRender := st.framesToRender }

/-- Embedding of `SpriteFactory::createSprite` (entity_factory.cpp, lines
427-468), explicit in the cache state: on a cache hit the cached data is
returned unchanged; on a miss the constituent parts are loaded, the frames
assembled and tweaked, and the result inserted into the cache.  A failing
part load aborts the call; the cache is only extended after all loads
succeeded, so no partially-built result is ever stored. -/
def createSprite (assets : SpriteAssets) (cache : SpriteCache)
    (mainId : ActorID) :
    Except ConfigurationError (SpriteData × SpriteCache) :=
  match cacheLookup cache mainId with
  | some data => .ok (data, cache)
  | none =>
    match loadAll assets (actorIDListForActor assets mainId) with
    | .error e => .error e
    | .ok actorParts =>
      let data := assembleSpriteData assets mainId actorParts
      .ok (data, (mainId, data) :: cache)

/-- A concrete single-part asset package used to evaluate the cached-sprite
theorem on a closed input: every identifier is supported, is its own only
part, has one frame, and a constant draw order. -/
def sampleAssets : SpriteAssets :=
  { supported := fun _ => true
    dataFor := fun _ => ⟨1, [⟨0, 0, 0⟩]⟩
    partsFor := fun id => [id]
    adjustedDrawOrder := fun _ _ => 1 }

/-- A concrete asset package that supports no identifier at all, used to
evaluate the unknown-identifier theorem on a closed input. -/
def unsupportedAssets : SpriteAssets :=
  { supported := fun _ => false
    dataFor := fun _ => ⟨0, []⟩
    partsFor := fun _ => []
    adjustedDrawOrder := fun _ d => d }

/-- Concrete constituent parts for Duke's ship, following the layout
documented in the source (entity_factory.cpp, lines 288-295): two parts of
two ship frames each, then one part with the six exhaust-flame frames
(down, left, right; images 4..9). -/
def dukesShipTestParts : List ActorData :=
  [⟨1, [⟨0, 0, 0⟩, ⟨1, 0, 0⟩]⟩,
   ⟨1, [⟨2, 0, 0⟩, ⟨3, 0, 0⟩]⟩,
   ⟨1, [⟨4, 0, 0⟩, ⟨5, 0, 0⟩, ⟨6, 0, 0⟩, ⟨7, 0, 0⟩, ⟨8, 0, 0⟩, ⟨9, 0, 0⟩]⟩]

/-- The frame list assembled from `dukesShipTestParts` by the createSprite
loop (the concatenation of the three parts' frames). -/
def dukesShipTestFrames : List SpriteFrame :=
  (dukesShipTestParts.foldl assembleStep ⟨[], [], 0, 0⟩).frames

/-- `dukesShipTestFrames` after the Duke's-ship tweak. -/
def dukesShipTweakedFrames : List SpriteFrame :=
  applyTweaks dukesShipTestFrames ActorID.Dukes_ship_LEFT dukesShipTestParts

/-- In the concrete Duke's-ship input, the exhaust-flame art is exactly the
third part's images 4..9. -/
def isExhaustFlameFrame (f : SpriteFrame) : Bool :=
  4 ≤ f.image

/-- An actor placement record from the level loader
(`data::map::ActorDescription`): identifier, position and the optional
assigned map-geometry region. -/
structure ActorDescription where
  mID : ActorID
  mPosition : Vec2
  mAssignedArea : Option Rect

/-- The external helpers consulted by `createEntitiesForLevel` that are not
among the provided sources: `hasAssociatedSprite`
(entity_configuration.ipp) and the bounding box inferred from the sprite's
frame extents (`engine::inferBoundingBox`; frame data is fixed per actor
identifier). -/
structure LevelCallbacks where
  hasAssociatedSprite : ActorID → Bool
  inferredBoundingBox : ActorID → Rect

/-- Whether an identifier is one of the two player-start markers
(entity_factory.cpp, line 682). -/
def isPlayerActor (id : ActorID) : Bool :=
  id = .Duke_LEFT || id = .Duke_RIGHT

/-- Modelled from the spec: `configureEntity` (entity_configuration.ipp,
not among the provided sources) attaches to the entity a deterministic set
of gameplay components selected purely from the actor identifier; it never
alters the entity's world position.  The attached component set is
recorded abstractly by the identifier it was selected from. -/
def configureEntity (e : Entity) (id : ActorID) (boundingBox : Rect) :
    Entity :=
  let _ := boundingBox
  { e with configuredAs := some id }

/-- Modelled from the spec: `assignPlayerComponents` (player code, not
among the provided sources) attaches the player-control components with
the given orientation. -/
def assignPlayerComponents (e : Entity) (orientation : Orientation) :
    Entity :=
  { e with playerOrientation := some orientation }

/-- The body of the `createEntitiesForLevel` loop for one placement record
(entity_factory.cpp, lines 655-689): the top-left to bottom-left position
conversion for records with an assigned region, the geometry link or
sprite attachment, `configureEntity`, and the player components for the
player-start markers. -/
def entityForActor (cb : LevelCallbacks) (actor : ActorDescription) :
    Entity :=
  let position :=
    match actor.mAssignedArea with
    | some area =>
      { actor.mPosition with y := actor.mPosition.y + (area.height - 1) }
    | none => actor.mPosition
  let e0 := { Entity.empty with position := some position }
  let e1 :=
    match actor.mAssignedArea with
    | some area => { e0 with mapGeometryLink := some area }
    | none =>
      if cb.hasAssociatedSprite actor.mID then
        { e0 with spriteId := some actor.mID }
      else e0
  let boundingBox :=
    match actor.mAssignedArea with
    | some area => { area with topLeftX := 0, topLeftY := 0 }
    | none =>
      if cb.hasAssociatedSprite actor.mID then
        cb.inferredBoundingBox actor.mID
      else ⟨0, 0, 0, 0⟩
  let e2 := configureEntity e1 actor.mID boundingBox
  if isPlayerActor actor.mID then
    assignPlayerComponents e2
      (if actor.mID = .Duke_LEFT then .Left else .Right)
  else e2

/-- One iteration of the `createEntitiesForLevel` loop, threading the list
of entities created so far (an entity handle is an index into that list)
and the player entity handle, which is overwritten whenever the current
record is a player-start marker. -/
def levelStep (cb : LevelCallbacks) (acc : List Entity × Option Nat)
    (actor : ActorDescription) : List Entity × Option Nat :=
  (acc.1 ++ [entityForActor cb actor],
   if isPlayerActor actor.mID then some acc.1.length else acc.2)

/-- Embedding of `EntityFactory::createEntitiesForLevel`
(entity_factory.cpp, lines 643-693): spawns one entity per placement
record and returns them together with the player entity handle; `none`
embeds the default-constructed (invalid) `entityx::Entity` returned when
no player-start marker is present. -/
def createEntitiesForLevel (cb : LevelCallbacks)
    (actors : List ActorDescription) : List Entity × Option Nat :=
  actors.foldl (levelStep cb) ([], none)

/-- A concrete callback set for evaluating the level-creation theorems on
closed inputs. -/
def sampleLevelCallbacks : LevelCallbacks :=
  { hasAssociatedSprite := fun _ => true
    inferredBoundingBox := fun _ => ⟨0, 0, 1, 1⟩ }

/-- Embedding of `data::WeaponType`. -/
inductive WeaponType where
  | Normal
  | Laser
  | Rocket
  | FlameThrower
deriving DecidableEq

/-- Embedding of `data::Difficulty`. -/
inductive Difficulty where
  | Easy
  | Medium
  | Hard

/-- The gameplay limit constants consulted by the saved-game deserializer
(`data::NUM_EPISODES`, `data::NUM_LEVELS_PER_EPISODE`, `data::MAX_SCORE`,
`data::MAX_AMMO`, `data::MAX_AMMO_FLAME_THROWER`); they are defined in
data headers not among the provided sources and therefore kept as
parameters. -/
structure GameplayConstants where
  NUM_EPISODES : Int
  NUM_LEVELS_PER_EPISODE : Int
  MAX_SCORE : Int
  MAX_AMMO : Int
  MAX_AMMO_FLAME_THROWER : Int

/-- A JSON saved-game document accepted by the deserializer: all required
fields are present with the right primitive types (every
`json.at(...).get<T>()` in the function succeeds). -/
structure SavedGameJson where
  episode : Int
  level : Int
  difficulty : Difficulty
  tutorialMessagesAlreadySeen : List Nat
  name : String
  weapon : WeaponType
  ammo : Int
  score : Int

/-- Embedding of `data::SavedGame` as populated by the deserializer. -/
structure SavedGame where
  mEpisode : Int
  mLevel : Int
  mDifficulty : Difficulty
  mTutorialMessagesAlreadySeen : List Nat
  mName : String
  mWeapon : WeaponType
  mAmmo : Int
  mScore : Int

/-- Embedding of `std::clamp(v, lo, hi)`. -/
def clampInt (v lo hi : Int) : Int :=
  if v < lo then lo else if hi < v then hi else v

/-- Embedding of `deserialize<data::SavedGame>` (user_profile.cpp, lines
241-269): every numeric field is clamped into its valid range, never
rejected; the ammo limit depends on whether the saved weapon is the flame
thrower. -/
def deserializeSavedGame (c : GameplayConstants) (json : SavedGameJson) :
    SavedGame :=
  { mEpisode := clampInt json.episode 0 (c.NUM_EPISODES - 1)
    mLevel := clampInt json.level 0 (c.NUM_LEVELS_PER_EPISODE - 1)
    mDifficulty := json.difficulty
    mTutorialMessagesAlreadySeen := json.tutorialMessagesAlreadySeen
    mName := json.name
    mWeapon := json.weapon
    mAmmo := clampInt json.ammo 0
      (if json.weapon = .FlameThrower then c.MAX_AMMO_FLAME_THROWER
       else c.MAX_AMMO)
    mScore := clampInt json.score 0 c.MAX_SCORE }

/-- C1 counterexample: the claim asserts every enemy-owned projectile
carries a player-targeting damage component and a world-collision +
leaving-active-region auto-destroy policy; but for the enemy rocket
(fired left at the origin, bounding-box width 2) `configureProjectile`
returns early and assigns neither component. -/
theorem C1_enemyRocket_counterexample :
    ((configureProjectile (fun _ => 1) (fun _ => 1) Entity.empty .EnemyRocket
        ⟨0, 0⟩ .Left ⟨0, 0, 2, 1⟩).1).playerDamaging = none ∧
    ((configureProjectile (fun _ => 1) (fun _ => 1) Entity.empty .EnemyRocket
        ⟨0, 0⟩ .Left ⟨0, 0, 2, 1⟩).1).autoDestroy = none := by
  decide

/-- C1 (amended): for every projectile type other than the two exempted
enemy rocket types, and every direction: if the type is player-owned (or
the reactor-debris effect), the configured entity carries an
enemy-targeting damage-inflicting component and an auto-destroy policy
whose only condition is leaving the active region; if the type is
enemy-owned and not a rocket (i.e. the enemy laser shot), the entity
carries a player-targeting damage component and an auto-destroy policy
containing both the world-collision and leaving-active-region
conditions. -/
theorem C1_projectileOwnershipConfiguration
    (speedFor damageFor : ProjectileType → Int) (e : Entity)
    (type : ProjectileType) (pos : Vec2)
    (dir : ProjectileDirection) (bb : Rect) :
    ((isPlayerProjectile type = true ∨ type = .ReactorDebris) →
      ((configureProjectile speedFor damageFor e type pos dir bb).1).damageInflicting
          = some ⟨damageFor type, false⟩ ∧
      ((configureProjectile speedFor damageFor e type pos dir bb).1).playerDamaging
          = e.playerDamaging ∧
      ((configureProjectile speedFor damageFor e type pos dir bb).1).autoDestroy
          = some ⟨false, true, none⟩) ∧
    (type = .EnemyLaserShot →
      ((configureProjectile speedFor damageFor e type pos dir bb).1).playerDamaging
          = some ⟨damageFor type, false, true⟩ ∧
      ((configureProjectile speedFor damageFor e type pos dir bb).1).damageInflicting
          = e.damageInflicting ∧
      ((configureProjectile speedFor damageFor e type pos dir bb).1).autoDestroy
          = some ⟨true, true, none⟩) := by
  cases type <;>
    simp [configureProjectile, isPlayerProjectile]

/-- Witness for C1: concrete instances of both branches (a player regular
shot and an enemy laser shot). -/
theorem C1_projectileOwnershipConfiguration_witness :
    (((configureProjectile (fun _ => 2) (fun _ => 1) Entity.empty
        .PlayerRegularShot ⟨5, 5⟩ .Right ⟨0, 0, 2, 1⟩).1).damageInflicting
        = some ⟨1, false⟩ ∧
      ((configureProjectile (fun _ => 2) (fun _ => 1) Entity.empty
        .PlayerRegularShot ⟨5, 5⟩ .Right ⟨0, 0, 2, 1⟩).1).playerDamaging
        = Entity.empty.playerDamaging ∧
      ((configureProjectile (fun _ => 2) (fun _ => 1) Entity.empty
        .PlayerRegularShot ⟨5, 5⟩ .Right ⟨0, 0, 2, 1⟩).1).autoDestroy
        = some ⟨false, true, none⟩) ∧
    (((configureProjectile (fun _ => 2) (fun _ => 1) Entity.empty
        .EnemyLaserShot ⟨5, 5⟩ .Right ⟨0, 0, 2, 1⟩).1).playerDamaging
        = some ⟨1, false, true⟩ ∧
      ((configureProjectile (fun _ => 2) (fun _ => 1) Entity.empty
        .EnemyLaserShot ⟨5, 5⟩ .Right ⟨0, 0, 2, 1⟩).1).damageInflicting
        = Entity.empty.damageInflicting ∧
      ((configureProjectile (fun _ => 2) (fun _ => 1) Entity.empty
        .EnemyLaserShot ⟨5, 5⟩ .Right ⟨0, 0, 2, 1⟩).1).autoDestroy
        = some ⟨true, true, none⟩) :=
  ⟨(C1_projectileOwnershipConfiguration (fun _ => 2) (fun _ => 1) Entity.empty
      .PlayerRegularShot ⟨5, 5⟩ .Right ⟨0, 0, 2, 1⟩).1 (Or.inl rfl),
   (C1_projectileOwnershipConfiguration (fun _ => 2) (fun _ => 1) Entity.empty
      .EnemyLaserShot ⟨5, 5⟩ .Right ⟨0, 0, 2, 1⟩).2 rfl⟩

/-- C2 counterexample: the claim states that a flame-thrower shot fired
leftward at origin (100,50) with bounding-box width 5 ends at corrected
spawn position (98, 50); the code yields (99, 51). -/
theorem C2_flameShotScenario_counterexample :
    correctedProjectilePosition .PlayerFlameShot ⟨100, 50⟩ .Left 5 ≠ ⟨98, 50⟩ ∧
    correctedProjectilePosition .PlayerFlameShot ⟨100, 50⟩ .Left 5 = ⟨99, 51⟩ := by
  decide

/-- C2 (amended): every horizontally-fired left-moving projectile has its x
position shifted left by (boundingBoxWidth − 1), with an additional fixed
+3 x correction for the flame-thrower shot; in addition, the flame-thrower
shot receives a vertical +1 offset when fired horizontally, and its
vertically-fired variant receives a horizontal x−1 offset instead; the
scenario (flame shot fired leftward at (100,50), bounding-box width 5)
yields (99, 51). -/
theorem C2_leftProjectilePositionCorrection
    (pos : Vec2) (w : Int) (type : ProjectileType) :
    (type ≠ .PlayerFlameShot →
      correctedProjectilePosition type pos .Left w
        = ⟨pos.x - (w - 1), pos.y⟩) ∧
    correctedProjectilePosition .PlayerFlameShot pos .Left w
      = ⟨pos.x - (w - 1) + 3, pos.y + 1⟩ ∧
    correctedProjectilePosition .PlayerFlameShot pos .Up w
      = ⟨pos.x - 1, pos.y⟩ ∧
    correctedProjectilePosition .PlayerFlameShot pos .Down w
      = ⟨pos.x - 1, pos.y⟩ ∧
    correctedProjectilePosition .PlayerFlameShot ⟨100, 50⟩ .Left 5
      = ⟨99, 51⟩ := by
  refine ⟨fun h => ?_, ?_, ?_, ?_, by decide⟩
  · cases type <;> simp_all [correctedProjectilePosition, isHorizontal]
  · simp [correctedProjectilePosition, isHorizontal]
  · simp [correctedProjectilePosition, isHorizontal]
  · simp [correctedProjectilePosition, isHorizontal]

/-- Witness for C2: the non-flame branch applied to a regular shot at
(7, 9) with width 2, and the flame scenario. -/
theorem C2_leftProjectilePositionCorrection_witness :
    correctedProjectilePosition .PlayerRegularShot ⟨7, 9⟩ .Left 2
      = ⟨7 - (2 - 1), 9⟩ ∧
    correctedProjectilePosition .PlayerFlameShot ⟨100, 50⟩ .Left 5
      = ⟨99, 51⟩ :=
  ⟨(C2_leftProjectilePositionCorrection ⟨7, 9⟩ 2 .PlayerRegularShot).1
      (by decide),
   (C2_leftProjectilePositionCorrection ⟨7, 9⟩ 2
      .PlayerRegularShot).2.2.2.2⟩

/-- C3 counterexample: the claim asserts that the player rocket variant,
like the enemy rockets, skips all further configuration; but the code only
exempts the two enemy rocket types, and the player rocket shot does get a
MovingBody (and damage and auto-destroy) component assigned. -/
theorem C3_playerRocket_counterexample :
    ((configureProjectile (fun _ => 2) (fun _ => 1) Entity.empty
        .PlayerRocketShot ⟨0, 0⟩ .Right ⟨0, 0, 1, 1⟩).1).movingBody ≠ none ∧
    ((configureProjectile (fun _ => 2) (fun _ => 1) Entity.empty
        .PlayerRocketShot ⟨0, 0⟩ .Right ⟨0, 0, 1, 1⟩).1).autoDestroy ≠ none := by
  decide

/-- C3 (amended): for the two enemy rocket projectile types (enemy rocket
and enemy boss rocket), `configureProjectile` returns right after the
position correction: no MovingBody, damage or auto-destroy component is
assigned, every component other than the world position is left unchanged,
and no additional entity is created.  The player rocket shot is not
exempted. -/
theorem C3_enemyRocketsSkipConfiguration
    (speedFor damageFor : ProjectileType → Int) (e : Entity)
    (type : ProjectileType) (pos : Vec2)
    (dir : ProjectileDirection) (bb : Rect)
    (h : type = .EnemyRocket ∨ type = .EnemyBossRocket) :
    configureProjectile speedFor damageFor e type pos dir bb =
      ({ e with
          position := some (correctedProjectilePosition type pos dir bb.width) },
        []) := by
  rcases h with h | h <;> subst h <;> simp [configureProjectile]

/-- Witness for C3: the enemy rocket, fired right from (3, 4) out of an
entity with no components, gets only its world position assigned. -/
theorem C3_enemyRocketsSkipConfiguration_witness :
    configureProjectile (fun _ => 2) (fun _ => 1) Entity.empty .EnemyRocket
        ⟨3, 4⟩ .Right ⟨0, 0, 1, 1⟩ =
      ({ Entity.empty with
          position := some (correctedProjectilePosition .EnemyRocket ⟨3, 4⟩ .Right 1) },
        []) :=
  C3_enemyRocketsSkipConfiguration (fun _ => 2) (fun _ => 1) Entity.empty
    .EnemyRocket ⟨3, 4⟩ .Right ⟨0, 0, 1, 1⟩ (Or.inl rfl)

/-- C8: exactly the enemy laser shot spawns an additional muzzle-flash
entity, whose sprite id depends on the firing direction (flash 1 when
firing left, flash 2 otherwise), positioned at the projectile's corrected
spawn position, with an auto-destroy timeout of 1; every other projectile
type creates no additional entity. -/
theorem C8_muzzleFlashSpawning
    (speedFor damageFor : ProjectileType → Int) (e : Entity)
    (type : ProjectileType) (pos : Vec2)
    (dir : ProjectileDirection) (bb : Rect) :
    (configureProjectile speedFor damageFor e type pos dir bb).2 =
      if type = .EnemyLaserShot then
        [{ Entity.empty with
            spriteId := some (if dir = .Left
              then ActorID.Enemy_laser_muzzle_flash_1
              else ActorID.Enemy_laser_muzzle_flash_2)
            position := some
              (correctedProjectilePosition type pos dir bb.width)
            autoDestroy := some ⟨false, false, some 1⟩ }]
      else [] := by
  cases type <;> simp [configureProjectile]

theorem mapFromIndex_ne_nil {α : Type} (f : Nat → α → α) (i : Nat)
    (l : List α) (h : l ≠ []) : mapFromIndex f i l ≠ [] := by
  cases l with
  | nil => exact absurd rfl h
  | cons x xs => simp [mapFromIndex]

theorem modifyAt_ne_nil {α : Type} (l : List α) (i : Nat) (f : α → α)
    (h : l ≠ []) : modifyAt l i f ≠ [] := by
  cases l with
  | nil => exact absurd rfl h
  | cons x xs => cases i <;> simp [modifyAt]

theorem insertAt_ne_nil {α : Type} (l : List α) (i : Nat) (a : α) :
    insertAt l i a ≠ [] := by
  cases l with
  | nil => cases i <;> simp [insertAt]
  | cons x xs => cases i <;> simp [insertAt]

theorem tweakDukeSprite_ne_nil (id : ActorID) (frames : List SpriteFrame)
    (h : frames ≠ []) : tweakDukeSprite id frames ≠ [] := by
  unfold tweakDukeSprite
  split
  · exact mapFromIndex_ne_nil _ _ _ h
  · exact h

theorem tweakReactorFire_ne_nil (id : ActorID) (frames : List SpriteFrame)
    (h : frames ≠ []) : tweakReactorFire id frames ≠ [] := by
  unfold tweakReactorFire
  split
  · exact modifyAt_ne_nil _ _ _ h
  · exact h

theorem tweakRadarComputer_ne_nil (id : ActorID) (frames : List SpriteFrame)
    (h : frames ≠ []) : tweakRadarComputer id frames ≠ [] := by
  unfold tweakRadarComputer
  split
  · exact mapFromIndex_ne_nil _ _ _ h
  · exact h

theorem tweakDukesShip_ne_nil (id : ActorID) (parts : List ActorData)
    (frames : List SpriteFrame) (h : frames ≠ []) :
    tweakDukesShip id parts frames ≠ [] := by
  unfold tweakDukesShip
  split
  · exact modifyAt_ne_nil _ _ _ (modifyAt_ne_nil _ _ _ (insertAt_ne_nil _ _ _))
  · exact h

/-- The tweaks never empty a non-empty frame list (they only adjust offsets
or insert copies). -/
theorem applyTweaks_ne_nil (frames : List SpriteFrame) (id : ActorID)
    (parts : List ActorData) (h : frames ≠ []) :
    applyTweaks frames id parts ≠ [] :=
  tweakDukesShip_ne_nil _ _ _
    (tweakRadarComputer_ne_nil _ _
      (tweakReactorFire_ne_nil _ _
        (tweakDukeSprite_ne_nil _ _ h)))

/-- Loading a list of supported part identifiers succeeds and yields their
frame records in order. -/
theorem loadAll_ok (assets : SpriteAssets) (l : List ActorID)
    (h : ∀ p ∈ l, assets.supported p = true) :
    loadAll assets l = .ok (l.map assets.dataFor) := by
  induction l with
  | nil => rfl
  | cons p ps ih =>
    have hp : assets.supported p = true := h p (List.mem_cons_self p ps)
    simp [loadAll, loadActorM, hp,
      ih (fun q hq => h q (List.mem_cons_of_mem p hq))]

/-- The assembly loop accumulates exactly the concatenation of every part's
frames (after `createFrameDrawData`), in part order. -/
theorem foldl_assembleStep_frames (parts : List ActorData)
    (st : AssemblyState) :
    (parts.foldl assembleStep st).frames
      = st.frames
        ++ (parts.map (fun p => p.mFrames.map createFrameDrawData)).flatten := by
  induction parts generalizing st with
  | nil => simp
  | cons p ps ih =>
    simp [List.foldl_cons, ih, assembleStep, List.append_assoc]

/-- C4: for a supported actor identifier (whose constituent part list is
non-empty, made of supported parts with at least one frame each) that is
not yet cached, `createSprite` succeeds with a non-empty frame list and a
draw order satisfying whatever validity predicate the draw-order table
respects, and calling it a second time returns the exact same (cached)
sprite data without changing the cache. -/
theorem C4_createSprite_nonEmpty_cached
    (assets : SpriteAssets) (cache : SpriteCache) (mainId : ActorID)
    (V : Int → Prop)
    (hMiss : cacheLookup cache mainId = none)
    (hSupp : assets.supported mainId = true)
    (hParts : assets.partsFor mainId ≠ [])
    (hLoad : ∀ p ∈ assets.partsFor mainId,
      assets.supported p = true ∧ (assets.dataFor p).mFrames ≠ [])
    (hOrder : ∀ d : Int, V (assets.adjustedDrawOrder mainId d)) :
    ∃ data cache₂,
      createSprite assets cache mainId = .ok (data, cache₂) ∧
      data.mDrawData.mFrames ≠ [] ∧
      V data.mDrawData.mDrawOrder ∧
      createSprite assets cache₂ mainId = .ok (data, cache₂) := by
  obtain ⟨p, rest, hPR⟩ : ∃ p rest, assets.partsFor mainId = p :: rest := by
    cases hE : assets.partsFor mainId with
    | nil => exact absurd hE hParts
    | cons p rest => exact ⟨p, rest, rfl⟩
  have hIDs : actorIDListForActor assets mainId = assets.partsFor mainId := by
    simp [actorIDListForActor, hSupp]
  have hLoadAll : loadAll assets (assets.partsFor mainId)
      = .ok ((assets.partsFor mainId).map assets.dataFor) :=
    loadAll_ok assets _ (fun q hq => (hLoad q hq).1)
  refine ⟨assembleSpriteData assets mainId
      ((assets.partsFor mainId).map assets.dataFor),
    (mainId, assembleSpriteData assets mainId
      ((assets.partsFor mainId).map assets.dataFor)) :: cache,
    ?_, ?_, ?_, ?_⟩
  · simp [createSprite, hMiss, hIDs, hLoadAll]
  · have hframes :
        ((((assets.partsFor mainId).map assets.dataFor).foldl assembleStep
          ⟨[], [], 0, 0⟩).frames) ≠ [] := by
      rw [foldl_assembleStep_frames, hPR]
      have h2 : (assets.dataFor p).mFrames ≠ [] :=
        (hLoad p (by rw [hPR]; exact List.mem_cons_self p rest)).2
      intro hEq
      simp only [List.nil_append, List.map_cons, List.flatten_cons,
        List.append_eq_nil, List.map_eq_nil_iff] at hEq
      exact h2 hEq.1
    exact applyTweaks_ne_nil _ _ _ hframes
  · exact hOrder _
  · simp [createSprite, cacheLookup]

/-- Witness for C4: the single-part sample assets, an empty cache, and
identifier `other 0`. -/
theorem C4_createSprite_nonEmpty_cached_witness :
    ∃ data cache₂,
      createSprite sampleAssets [] (ActorID.other 0) = .ok (data, cache₂) ∧
      data.mDrawData.mFrames ≠ [] ∧
      data.mDrawData.mDrawOrder = 1 ∧
      createSprite sampleAssets cache₂ (ActorID.other 0)
        = .ok (data, cache₂) :=
  C4_createSprite_nonEmpty_cached sampleAssets [] (ActorID.other 0)
    (fun d => d = 1) rfl rfl (by simp [sampleAssets])
    (fun q _ => ⟨rfl, by simp [sampleAssets]⟩) (fun _ => rfl)

/-- C6 counterexample: the claim asserts 12 total exhaust-flame frames; on
the documented concrete input (two two-frame ship parts plus the six-frame
exhaust part) the tweaked sprite has 12 frames in total but only 8 of them
are exhaust-flame frames. -/
theorem C6_flameFrameCount_counterexample :
    (dukesShipTweakedFrames.filter isExhaustFlameFrame).length = 8 ∧
    dukesShipTweakedFrames.length = 12 ∧
    (dukesShipTweakedFrames.filter isExhaustFlameFrame).length ≠ 12 := by
  decide

/-- C6 (amended): for the Duke's-ship actor identifiers, tweaking the
10-frame assembled sprite yields 12 total frames, of which 8 are
exhaust-flame frames: the 10 original frames with their ordering preserved,
plus duplicates of the third part's two down-facing flame frames inserted
at indices 8 and 9 with a +1 horizontal draw offset. -/
theorem C6_dukesShipTweak
    (f0 f1 f2 f3 f4 f5 f6 f7 f8 f9 : SpriteFrame)
    (p0 p1 : ActorData) (d : Int) (g0 g1 : ActorFrameData)
    (rest : List ActorFrameData) :
    applyTweaks [f0, f1, f2, f3, f4, f5, f6, f7, f8, f9]
        ActorID.Dukes_ship_LEFT [p0, p1, ⟨d, g0 :: g1 :: rest⟩] =
      [f0, f1, f2, f3, f4, f5, f6, f7,
       ⟨g0.mFrameImage, g0.mDrawOffsetX + 1, g0.mDrawOffsetY⟩,
       ⟨g1.mFrameImage, g1.mDrawOffsetX + 1, g1.mDrawOffsetY⟩,
       f8, f9] ∧
    (applyTweaks [f0, f1, f2, f3, f4, f5, f6, f7, f8, f9]
        ActorID.Dukes_ship_LEFT [p0, p1, ⟨d, g0 :: g1 :: rest⟩]).length
      = 12 := by
  constructor
  · rfl
  · rfl

/-- C7: for an identifier outside the finite supported set (and not
previously cached), `createSprite` signals the fatal configuration error;
no sprite data is returned and, the cache being only extended on the
success path, no partially-built state is left behind. -/
theorem C7_unknownActor_fatal
    (assets : SpriteAssets) (cache : SpriteCache) (id : ActorID)
    (hMiss : cacheLookup cache id = none)
    (hUnsupp : assets.supported id = false) :
    createSprite assets cache id
      = .error ConfigurationError.unknownActor := by
  simp [createSprite, hMiss, actorIDListForActor, hUnsupp, loadAll,
    loadActorM]

/-- Witness for C7: the all-unsupported assets with an empty cache. -/
theorem C7_unknownActor_fatal_witness :
    createSprite unsupportedAssets [] (ActorID.other 3)
      = .error ConfigurationError.unknownActor :=
  C7_unknownActor_fatal unsupportedAssets [] (ActorID.other 3) rfl rfl

/-- The entity list built by the level loop is exactly one entity per
placement record, in order. -/
theorem foldl_levelStep_fst (cb : LevelCallbacks)
    (l : List ActorDescription) (es : List Entity) (pl : Option Nat) :
    (l.foldl (levelStep cb) (es, pl)).1
      = es ++ l.map (entityForActor cb) := by
  induction l generalizing es pl with
  | nil => simp
  | cons a l ih => simp [List.foldl_cons, levelStep, ih]

/-- Processing records that contain no player-start marker leaves the
player handle unchanged. -/
theorem foldl_levelStep_snd_noPlayer (cb : LevelCallbacks)
    (l : List ActorDescription) (es : List Entity) (pl : Option Nat)
    (h : ∀ d ∈ l, isPlayerActor d.mID = false) :
    (l.foldl (levelStep cb) (es, pl)).2 = pl := by
  induction l generalizing es pl with
  | nil => rfl
  | cons a l ih =>
    have ha := h a (List.mem_cons_self a l)
    simp [List.foldl_cons, levelStep, ha,
      ih _ _ (fun d hd => h d (List.mem_cons_of_mem a hd))]

/-- If the records after a player-start marker contain no further marker,
the returned handle is that marker's index, and the entity list is the
map of the per-record spawner over the whole input. -/
theorem createEntitiesForLevel_player (cb : LevelCallbacks)
    (xs ys : List ActorDescription) (a : ActorDescription)
    (ha : isPlayerActor a.mID = true)
    (hys : ∀ d ∈ ys, isPlayerActor d.mID = false) :
    (createEntitiesForLevel cb (xs ++ a :: ys)).2 = some xs.length ∧
    (createEntitiesForLevel cb (xs ++ a :: ys)).1
      = (xs ++ a :: ys).map (entityForActor cb) := by
  have hS : (xs.foldl (levelStep cb) ([], none)).1
      = xs.map (entityForActor cb) := by
    simpa using foldl_levelStep_fst cb xs [] none
  constructor
  · rw [createEntitiesForLevel, List.foldl_append, List.foldl_cons,
      foldl_levelStep_snd_noPlayer cb ys _ _ hys]
    simp [levelStep, ha, hS]
  · have h := foldl_levelStep_fst cb (xs ++ a :: ys) [] none
    rw [List.nil_append] at h
    exact h

/-- The world position assigned to a spawned entity: the raw placement
position, with the y coordinate moved down by (region height − 1) when the
record carries an assigned geometry region. -/
theorem entityForActor_position (cb : LevelCallbacks)
    (d : ActorDescription) :
    (entityForActor cb d).position
      = some (match d.mAssignedArea with
          | some area =>
            { d.mPosition with y := d.mPosition.y + (area.height - 1) }
          | none => d.mPosition) := by
  cases hA : d.mAssignedArea with
  | none =>
    by_cases hs : cb.hasAssociatedSprite d.mID = true <;>
      by_cases hp : isPlayerActor d.mID = true <;>
        simp [entityForActor, configureEntity, assignPlayerComponents,
          hA, hs, hp]
  | some area =>
    by_cases hp : isPlayerActor d.mID = true <;>
      simp [entityForActor, configureEntity, assignPlayerComponents,
        hA, hp]

/-- A player-start marker's entity carries the orientation selected by
which of the two player identifiers the marker uses. -/
theorem entityForActor_playerOrientation (cb : LevelCallbacks)
    (d : ActorDescription) (hp : isPlayerActor d.mID = true) :
    (entityForActor cb d).playerOrientation
      = some (if d.mID = ActorID.Duke_LEFT then Orientation.Left
          else Orientation.Right) := by
  cases hA : d.mAssignedArea with
  | none =>
    by_cases hs : cb.hasAssociatedSprite d.mID = true <;>
      simp [entityForActor, configureEntity, assignPlayerComponents,
        hA, hs, hp]
  | some area =>
    simp [entityForActor, configureEntity, assignPlayerComponents, hA, hp]

/-- C5: for a placement list containing exactly one player-start marker
(which, not being a geometry-region record, carries no assigned area),
`createEntitiesForLevel` returns that marker's entity handle (a valid
index into the spawned entities); the player entity's position is exactly
the marker's raw position, with no region-offset correction; and every
record carrying an assigned geometry region spawns with its y position
increased by (region height − 1). -/
theorem C5_singlePlayerStart (cb : LevelCallbacks)
    (xs ys : List ActorDescription) (a : ActorDescription)
    (ha : isPlayerActor a.mID = true)
    (hNoArea : a.mAssignedArea = none)
    (_hxs : ∀ d ∈ xs, isPlayerActor d.mID = false)
    (hys : ∀ d ∈ ys, isPlayerActor d.mID = false) :
    (createEntitiesForLevel cb (xs ++ a :: ys)).2 = some xs.length ∧
    ((createEntitiesForLevel cb (xs ++ a :: ys)).1)[xs.length]?
      = some (entityForActor cb a) ∧
    (entityForActor cb a).position = some a.mPosition ∧
    (∀ d : ActorDescription, ∀ area : Rect,
      d.mAssignedArea = some area →
      (entityForActor cb d).position
        = some { d.mPosition with
            y := d.mPosition.y + (area.height - 1) }) := by
  obtain ⟨hSnd, hFst⟩ := createEntitiesForLevel_player cb xs ys a ha hys
  refine ⟨hSnd, ?_, ?_, ?_⟩
  · rw [hFst, List.map_append]
    rw [List.getElem?_append_right (by simp)]
    simp
  · rw [entityForActor_position, hNoArea]
  · intro d area hd
    rw [entityForActor_position, hd]

/-- Witness for C5: one geometry-region record (at (10,20), region height
3) followed by a left-facing player marker at (2,3). -/
theorem C5_singlePlayerStart_witness :
    (createEntitiesForLevel sampleLevelCallbacks
      [⟨ActorID.other 5, ⟨10, 20⟩, some ⟨0, 0, 4, 3⟩⟩,
       ⟨ActorID.Duke_LEFT, ⟨2, 3⟩, none⟩]).2 = some 1 ∧
    ((createEntitiesForLevel sampleLevelCallbacks
      [⟨ActorID.other 5, ⟨10, 20⟩, some ⟨0, 0, 4, 3⟩⟩,
       ⟨ActorID.Duke_LEFT, ⟨2, 3⟩, none⟩]).1)[1]?
      = some (entityForActor sampleLevelCallbacks
          ⟨ActorID.Duke_LEFT, ⟨2, 3⟩, none⟩) ∧
    (entityForActor sampleLevelCallbacks
      ⟨ActorID.Duke_LEFT, ⟨2, 3⟩, none⟩).position = some ⟨2, 3⟩ ∧
    (entityForActor sampleLevelCallbacks
      ⟨ActorID.other 5, ⟨10, 20⟩, some ⟨0, 0, 4, 3⟩⟩).position
      = some ⟨10, 20 + (3 - 1)⟩ := by
  have h := C5_singlePlayerStart sampleLevelCallbacks
    [⟨ActorID.other 5, ⟨10, 20⟩, some ⟨0, 0, 4, 3⟩⟩]
    [] ⟨ActorID.Duke_LEFT, ⟨2, 3⟩, none⟩
    (by decide) rfl (by decide) (by simp)
  exact ⟨h.1, h.2.1, h.2.2.1,
    h.2.2.2 ⟨ActorID.other 5, ⟨10, 20⟩, some ⟨0, 0, 4, 3⟩⟩ ⟨0, 0, 4, 3⟩ rfl⟩

/-- C9: with no player-start marker in the input, `createEntitiesForLevel`
returns the invalid (default-constructed) handle; with one or more
markers, the handle of the last marker in list order is returned; and
every marker's entity carries the orientation selected by which of the two
player identifiers it uses. -/
theorem C9_playerStartMarkers (cb : LevelCallbacks)
    (actors xs ys : List ActorDescription) (a : ActorDescription) :
    ((∀ d ∈ actors, isPlayerActor d.mID = false) →
      (createEntitiesForLevel cb actors).2 = none) ∧
    (isPlayerActor a.mID = true →
      (∀ d ∈ ys, isPlayerActor d.mID = false) →
      (createEntitiesForLevel cb (xs ++ a :: ys)).2 = some xs.length ∧
      ((createEntitiesForLevel cb (xs ++ a :: ys)).1)[xs.length]?
        = some (entityForActor cb a)) ∧
    (∀ d : ActorDescription, isPlayerActor d.mID = true →
      (entityForActor cb d).playerOrientation
        = some (if d.mID = ActorID.Duke_LEFT then Orientation.Left
            else Orientation.Right)) := by
  refine ⟨?_, ?_, ?_⟩
  · intro h
    exact foldl_levelStep_snd_noPlayer cb actors [] none h
  · intro ha hys
    obtain ⟨hSnd, hFst⟩ := createEntitiesForLevel_player cb xs ys a ha hys
    refine ⟨hSnd, ?_⟩
    rw [hFst, List.map_append]
    rw [List.getElem?_append_right (by simp)]
    simp
  · intro d hp
    exact entityForActor_playerOrientation cb d hp

/-- Witness for C9: an empty list returns the invalid handle; a list with
two player markers (a right-facing one, then a left-facing one after a
non-player record) returns the handle of the last marker, which carries
the left orientation. -/
theorem C9_playerStartMarkers_witness :
    (createEntitiesForLevel sampleLevelCallbacks []).2 = none ∧
    (createEntitiesForLevel sampleLevelCallbacks
      [⟨ActorID.Duke_RIGHT, ⟨0, 0⟩, none⟩,
       ⟨ActorID.other 9, ⟨4, 4⟩, none⟩,
       ⟨ActorID.Duke_LEFT, ⟨7, 8⟩, none⟩]).2 = some 2 ∧
    (entityForActor sampleLevelCallbacks
      ⟨ActorID.Duke_LEFT, ⟨7, 8⟩, none⟩).playerOrientation
      = some (if ActorID.Duke_LEFT = ActorID.Duke_LEFT
          then Orientation.Left else Orientation.Right) := by
  refine ⟨(C9_playerStartMarkers sampleLevelCallbacks [] []
      [] ⟨ActorID.Duke_LEFT, ⟨0, 0⟩, none⟩).1 (by simp), ?_, ?_⟩
  · exact ((C9_playerStartMarkers sampleLevelCallbacks []
      [⟨ActorID.Duke_RIGHT, ⟨0, 0⟩, none⟩, ⟨ActorID.other 9, ⟨4, 4⟩, none⟩]
      [] ⟨ActorID.Duke_LEFT, ⟨7, 8⟩, none⟩).2.1 (by decide) (by simp)).1
  · exact (C9_playerStartMarkers sampleLevelCallbacks [] []
      [] ⟨ActorID.Duke_LEFT, ⟨0, 0⟩, none⟩).2.2
      ⟨ActorID.Duke_LEFT, ⟨7, 8⟩, none⟩ (by decide)

/-- C10: every accepted saved-game document deserializes to a SavedGame
satisfying the range invariants — episode in [0, NUM_EPISODES − 1], level
in [0, NUM_LEVELS_PER_EPISODE − 1], score in [0, MAX_SCORE], ammo in
[0, max] with max the flame-thrower limit exactly when the saved weapon is
the flame thrower — and in-range stored values pass through unchanged
(out-of-range values are clamped, not rejected: the deserializer is total
on accepted documents). -/
theorem C10_savedGameInvariants (c : GameplayConstants)
    (json : SavedGameJson)
    (hE : 1 ≤ c.NUM_EPISODES) (hL : 1 ≤ c.NUM_LEVELS_PER_EPISODE)
    (hS : 0 ≤ c.MAX_SCORE) (hA : 0 ≤ c.MAX_AMMO)
    (hF : 0 ≤ c.MAX_AMMO_FLAME_THROWER) :
    (0 ≤ (deserializeSavedGame c json).mEpisode ∧
      (deserializeSavedGame c json).mEpisode ≤ c.NUM_EPISODES - 1) ∧
    (0 ≤ (deserializeSavedGame c json).mLevel ∧
      (deserializeSavedGame c json).mLevel
        ≤ c.NUM_LEVELS_PER_EPISODE - 1) ∧
    (0 ≤ (deserializeSavedGame c json).mScore ∧
      (deserializeSavedGame c json).mScore ≤ c.MAX_SCORE) ∧
    (0 ≤ (deserializeSavedGame c json).mAmmo ∧
      (deserializeSavedGame c json).mAmmo
        ≤ (if json.weapon = .FlameThrower then c.MAX_AMMO_FLAME_THROWER
            else c.MAX_AMMO)) ∧
    (0 ≤ json.score → json.score ≤ c.MAX_SCORE →
      (deserializeSavedGame c json).mScore = json.score) := by
  refine ⟨⟨?_, ?_⟩, ⟨?_, ?_⟩, ⟨?_, ?_⟩, ⟨?_, ?_⟩, ?_⟩ <;>
    simp only [deserializeSavedGame, clampInt] <;>
    (try intro h1 h2) <;> split_ifs <;> omega

/-- Witness for C10: the original game's constants with an out-of-range
episode (99), level (−5) and ammo (1000, flame thrower), and an in-range
score. -/
theorem C10_savedGameInvariants_witness :
    (0 ≤ (deserializeSavedGame ⟨4, 8, 9999999, 32, 64⟩
        ⟨99, -5, .Easy, [], "x", .FlameThrower, 1000, 500⟩).mEpisode ∧
      (deserializeSavedGame ⟨4, 8, 9999999, 32, 64⟩
        ⟨99, -5, .Easy, [], "x", .FlameThrower, 1000, 500⟩).mEpisode
        ≤ 4 - 1) ∧
    (0 ≤ (deserializeSavedGame ⟨4, 8, 9999999, 32, 64⟩
        ⟨99, -5, .Easy, [], "x", .FlameThrower, 1000, 500⟩).mLevel ∧
      (deserializeSavedGame ⟨4, 8, 9999999, 32, 64⟩
        ⟨99, -5, .Easy, [], "x", .FlameThrower, 1000, 500⟩).mLevel
        ≤ 8 - 1) ∧
    (0 ≤ (deserializeSavedGame ⟨4, 8, 9999999, 32, 64⟩
        ⟨99, -5, .Easy, [], "x", .FlameThrower, 1000, 500⟩).mScore ∧
      (deserializeSavedGame ⟨4, 8, 9999999, 32, 64⟩
        ⟨99, -5, .Easy, [], "x", .FlameThrower, 1000, 500⟩).mScore
        ≤ 9999999) ∧
    (0 ≤ (deserializeSavedGame ⟨4, 8, 9999999, 32, 64⟩
        ⟨99, -5, .Easy, [], "x", .FlameThrower, 1000, 500⟩).mAmmo ∧
      (deserializeSavedGame ⟨4, 8, 9999999, 32, 64⟩
        ⟨99, -5, .Easy, [], "x", .FlameThrower, 1000, 500⟩).mAmmo
        ≤ (if (WeaponType.FlameThrower : WeaponType) = .FlameThrower
            then (64 : Int) else 32)) ∧
    (deserializeSavedGame ⟨4, 8, 9999999, 32, 64⟩
        ⟨99, -5, .Easy, [], "x", .FlameThrower, 1000, 500⟩).mScore
      = 500 := by
  have h := C10_savedGameInvariants ⟨4, 8, 9999999, 32, 64⟩
    ⟨99, -5, .Easy, [], "x", .FlameThrower, 1000, 500⟩
    (by decide) (by decide) (by decide) (by decide) (by decide)
  exact ⟨h.1, h.2.1, h.2.2.1, h.2.2.2.1,
    h.2.2.2.2 (by decide) (by decide)⟩

end RigelEngine
